import Mathlib

/-!
Verification development for the aina-YTLoop repository (src/main.py,
src/obs_handler.py, src/youtube_handler.py).

The Python code is shallowly embedded: datetimes and wall-clock instants are
natural-number timestamps (seconds), external calls (the YouTube Data API
client, the OBS WebSocket client, datetime.strptime) are oracles supplied as
explicit parameters, and each Python function that a claim mentions is
transcribed as a Lean function over those oracles.
-/

namespace YTLoop

/-- Python datetime.max, modelled as the timestamp of 9999-12-31 23:59:59.
All datetime values are natural-number timestamps; main.py compares the
computed expiration bound against datetime.max by inequality only, so a
distinguished sentinel value suffices. -/
def dtMax : Nat := 253402300799

/-- Loop bounds read from config in main.py lines 51-63: loop.count,
loop.duration_hours, and the expiration datetime computed from
loop.expiration_datetime (dtMax when unset or malformed). -/
structure LoopCfg where
  loopCount : Nat
  durationHours : Nat
  expiration : Nat
deriving Repr, DecidableEq

/-- Transcription of main.py lines 55-63, computing expiration_datetime.
The raw config string and datetime.strptime (external library code) are
modelled together as an oracle: input none stands for an empty or absent
expiration_datetime string (falsy, line 56 takes the else branch); input
some none stands for a non-empty string on which strptime raises
ValueError (line 59); input some (some d) stands for a non-empty string
parsed to the datetime d.  The result pairs the expiration value used by
the loop with whether the malformed-format warning of line 60 was logged. -/
def computeExpiration : Option (Option Nat) → Nat × Bool
  | none => (dtMax, false)
  | some none => (dtMax, true)
  | some (some d) => (d, false)

/-- The reason the while loop broke, in main.py lines 75-83. -/
inductive BreakReason
  | countBound
  | durationBound
  | expirationBound
deriving Repr, DecidableEq

/-- Transcription of the termination checks at the top of the while loop,
main.py lines 75-83, in source order: iteration-count bound, cumulative
duration bound (the float division by 3600 becomes Nat division, which
agrees with the float comparison for integer hour bounds), absolute
expiration bound.  iter is loop_iteration, elapsedSec is
current_time - start_time, nowDt is datetime.now(). -/
def terminationCheck (cfg : LoopCfg) (iter elapsedSec nowDt : Nat) : Option BreakReason :=
  if cfg.loopCount ≠ 0 ∧ iter ≥ cfg.loopCount then some .countBound
  else if cfg.durationHours ≠ 0 ∧ elapsedSec / 3600 ≥ cfg.durationHours then some .durationBound
  else if cfg.expiration ≠ dtMax ∧ nowDt ≥ cfg.expiration then some .expirationBound
  else none

/-- Control-flow outcome of one execution of the iteration body,
main.py lines 87-149.  Each constructor is one of the paths through the
body; the three Raises constructors stand for a Python Exception raised at
that point and propagating to the except clause at line 142 (the OBS
handler methods themselves cannot raise, their decorator returns None on
error, but config lookups and the YouTube client can). -/
inductive IterTrace
  | createRaises
  | createNone
  | settingsFalse
  | preWaitRaises
  | waitFalse
  | holdRaises
  | holdCompletes
deriving Repr, DecidableEq

/-- Observable effects of one execution of the iteration body. -/
structure IterResult where
  stopIssued : Bool
  nextIter : Nat
  sleep60 : Bool
  sleep10 : Bool
  caughtAtBoundary : Bool
deriving Repr, DecidableEq

/-- Transcription of the iteration body, main.py lines 87-149, as a function
of the path taken and the entry value of loop_iteration.
createNone: line 91 falsy stream_key, sleep(60) and continue (no increment).
settingsFalse: line 99, same soft retry.  waitFalse: line 137 else branch,
same soft retry.  holdCompletes: the hold loop of lines 123-132 finishes,
stop_stream is issued at line 135, then lines 147-149 sleep 10 seconds and
increment loop_iteration.  The Raises paths jump to the except clause at
line 142 (log, sleep 60) and then fall through to lines 147-149 (sleep 10,
increment); stop_stream at line 135 is skipped. -/
def runIteration : IterTrace → Nat → IterResult
  | .createRaises, iter => ⟨false, iter + 1, true, true, true⟩
  | .createNone, iter => ⟨false, iter, true, false, false⟩
  | .settingsFalse, iter => ⟨false, iter, true, false, false⟩
  | .preWaitRaises, iter => ⟨false, iter + 1, true, true, true⟩
  | .waitFalse, iter => ⟨false, iter, true, false, false⟩
  | .holdRaises, iter => ⟨false, iter + 1, true, true, true⟩
  | .holdCompletes, iter => ⟨true, iter + 1, false, true, false⟩

/-- How the while loop of main.py lines 70-149 ended: one of the three
bound checks broke it, a KeyboardInterrupt was raised, or the given fuel
ran out with the loop still running. -/
inductive RunEnd
  | boundReached (r : BreakReason)
  | interrupted
  | fuelOut
deriving Repr, DecidableEq

/-- What happens during loop step k: either the body runs along a path
(Python Exceptions included, all caught inside the body or at line 142), or
a KeyboardInterrupt is raised somewhere inside the step.  A
KeyboardInterrupt is not an Exception in Python 3, so the except clause at
line 142 never catches it and it propagates to line 151. -/
inductive IterSignal
  | body (t : IterTrace)
  | interrupt
deriving Repr, DecidableEq

/-- Transcription of the while loop, main.py lines 70-149.  env gives the
path of each step, times k gives (current_time - start_time, datetime.now())
at the top of step k, fuel bounds how many steps we unfold.  Returns how the
loop ended together with the final loop_iteration. -/
def runLoopAux (cfg : LoopCfg) (env : Nat → IterSignal) (times : Nat → Nat × Nat) :
    Nat → Nat → Nat → RunEnd × Nat
  | 0, _, iter => (.fuelOut, iter)
  | fuel + 1, k, iter =>
    match terminationCheck cfg iter (times k).1 (times k).2 with
    | some r => (.boundReached r, iter)
    | none =>
      match env k with
      | .interrupt => (.interrupted, iter)
      | .body tr => runLoopAux cfg env times fuel (k + 1) (runIteration tr iter).nextIter

/-- Observable outcome of main after the loop: whether the finally block
(line 153, obs_handler.disconnect) ran, the process exit code, and how many
times the except KeyboardInterrupt clause at line 151 fired. -/
structure MainResult where
  disconnectRan : Bool
  exitCode : Nat
  interruptCaught : Nat
  runEnd : RunEnd
  finalIter : Nat
deriving Repr, DecidableEq

/-- Transcription of main.py lines 69-156: the try enclosing the whole while
loop, the single except KeyboardInterrupt clause at line 151, and the finally
clause at lines 153-155 that always disconnects the OBS client.  main then
returns normally in both the normal-break and the interrupted case, so the
process exits with code 0. -/
def runMain (cfg : LoopCfg) (env : Nat → IterSignal) (times : Nat → Nat × Nat)
    (fuel : Nat) : MainResult :=
  { disconnectRan := true
    exitCode := 0
    interruptCaught :=
      if (runLoopAux cfg env times fuel 0 0).1 = RunEnd.interrupted then 1 else 0
    runEnd := (runLoopAux cfg env times fuel 0 0).1
    finalIter := (runLoopAux cfg env times fuel 0 0).2 }

/-- Behavior of one delete call issued by the cleanup functions of
youtube_handler.py: it succeeds; or it raises an HttpError with status 403
whose body mentions liveStreamDeletionNotAllowed; or it raises some other
HttpError; or it raises an exception that is not an HttpError. -/
inductive DeleteOutcome
  | success
  | forbidden
  | httpError
  | otherExc
deriving Repr, DecidableEq

/-- Transcription of the per-stream delete loop of delete_all_live_streams,
youtube_handler.py lines 156-165, starting at batch position i.  Returns
the positions (within the original batch) whose delete call succeeded,
paired with whether an exception escaped the loop into the function-level
except clause at line 168.  The inner try of lines 158-165 catches only
HttpError: the forbidden condition is logged and skipped (lines 162-163),
any other HttpError is logged (line 165) and the loop continues; a
non-HttpError exception propagates out of the loop, so the remaining
streams of the batch are not deleted. -/
def deleteStreamsFrom : List DeleteOutcome → Nat → List Nat × Bool
  | [], _ => ([], false)
  | o :: rest, i =>
    match o with
    | .success =>
      (i :: (deleteStreamsFrom rest (i + 1)).1, (deleteStreamsFrom rest (i + 1)).2)
    | .forbidden => deleteStreamsFrom rest (i + 1)
    | .httpError => deleteStreamsFrom rest (i + 1)
    | .otherExc => ([], true)

/-- Transcription of delete_all_live_streams, youtube_handler.py lines
128-169, restricted to its deletion phase (the listing phase is the batch
argument).  The function-level except at line 168 logs and returns, so the
function itself never raises. -/
def delete_all_live_streams (batch : List DeleteOutcome) : List Nat × Bool :=
  deleteStreamsFrom batch 0

/-- Transcription of the per-broadcast delete loop of
delete_all_scheduled_broadcasts, youtube_handler.py lines 119-122, starting
at batch position i.  There is no per-item try: the delete call at line 121
is guarded only by the function-level try of line 96, so the first failing
delete (any exception at all) aborts the remaining deletions of the batch;
the function-level except at line 125 logs it and returns. -/
def deleteBroadcastsFrom : List DeleteOutcome → Nat → List Nat × Bool
  | [], _ => ([], false)
  | o :: rest, i =>
    match o with
    | .success =>
      (i :: (deleteBroadcastsFrom rest (i + 1)).1, (deleteBroadcastsFrom rest (i + 1)).2)
    | _ => ([], true)

/-- Transcription of delete_all_scheduled_broadcasts, youtube_handler.py
lines 91-126, restricted to its deletion phase. -/
def delete_all_scheduled_broadcasts (batch : List DeleteOutcome) : List Nat × Bool :=
  deleteBroadcastsFrom batch 0

/-- Errors an OBS request can raise, as the ensure_connection decorator of
obs_handler.py distinguishes them: connErr is ConnectionRefusedError or
BrokenPipeError (line 22), otherErr is any other Exception (line 35). -/
inductive OpErr
  | connErr
  | otherErr
deriving Repr, DecidableEq

/-- Result of one invocation of the wrapped operation: a value, or a raised
error. -/
inductive OpRes
  | ok (v : Nat)
  | err (e : OpErr)
deriving Repr, DecidableEq

/-- Oracle for one pass through the ensure_connection wrapper,
obs_handler.py lines 7-38: whether self.client is already set on entry, the
result of connect() if it is called on entry (line 16), the outcome of the
first invocation of the wrapped operation, the result of connect() in the
reconnect path (line 25), and the outcome of the retried invocation
(line 28). -/
structure WrapEnv where
  connected : Bool
  connect1 : Bool
  call1 : OpRes
  reconnectOk : Bool
  call2 : OpRes
deriving Repr, DecidableEq

/-- Observable outcome of one pass through the ensure_connection wrapper:
the returned value (none transcribes Python None), how many times the
wrapped operation was invoked, and how many disconnect-then-reconnect
cycles (lines 24-25) ran. -/
structure WrapResult where
  result : Option Nat
  opCalls : Nat
  reconnectCycles : Nat
deriving Repr, DecidableEq

/-- Transcription of the wrapper built by the ensure_connection decorator,
obs_handler.py lines 13-37.  No client and a failed connect returns None
without invoking the operation (lines 14-18).  A connection-level error
from the first invocation triggers disconnect() plus connect() (lines
24-25); if that connect succeeds the operation is invoked once more, and
any exception from the retry is caught at lines 29-31 and becomes None; if
the reconnect fails the wrapper returns None (lines 32-34).  Any other
exception from the first invocation is caught at lines 35-37 and becomes
None. -/
def ensure_connection (env : WrapEnv) : WrapResult :=
  if env.connected = false ∧ env.connect1 = false then
    { result := none, opCalls := 0, reconnectCycles := 0 }
  else
    match env.call1 with
    | .ok v => { result := some v, opCalls := 1, reconnectCycles := 0 }
    | .err .connErr =>
      if env.reconnectOk then
        match env.call2 with
        | .ok v => { result := some v, opCalls := 2, reconnectCycles := 1 }
        | .err _ => { result := none, opCalls := 2, reconnectCycles := 1 }
      else { result := none, opCalls := 1, reconnectCycles := 1 }
    | .err .otherErr => { result := none, opCalls := 1, reconnectCycles := 0 }

/-- Oracle for one run of create_youtube_broadcast, youtube_handler.py
lines 171-296: the result of liveBroadcasts().insert (none when the try of
lines 221-230 catches an exception), the result of liveStreams().insert as
the pair of stream id and stream key streamName (none when lines 253-255
catch), whether liveBroadcasts().bind succeeds (lines 259-268), the result
of get_or_create_playlist (none both when no playlist is found or created,
lines 292-293), and whether playlistItems().insert succeeds (lines
285-291). -/
structure CreateEnv where
  insertBroadcast : Option Nat
  insertStream : Option (Nat × List Char)
  bindOk : Bool
  playlistId : Option Nat
  insertItemOk : Bool
deriving Repr, DecidableEq

/-- The four ordered steps of create_youtube_broadcast; playlistPhase is
step 4 (resolve-or-create the playlist and attach the broadcast). -/
inductive CreateStep
  | insertBroadcast
  | insertStream
  | bind
  | playlistPhase
deriving Repr, DecidableEq

/-- Transcription of create_youtube_broadcast, youtube_handler.py lines
171-296 (after its optional cleanup phase, which delegates to the two
delete functions above).  Returns the Python return value (the stream key,
or None), the list of steps attempted in order, and whether the broadcast
ended up attached to a playlist.  Step 1 failing returns None at line 230
before step 2 runs; step 2 failing returns None at line 255; step 3 failing
returns None at line 268; step 4 runs inside its own try (lines 275-291) or
is skipped when playlistId is None (lines 292-293), and either way line 296
returns the stream key obtained in step 2. -/
def create_youtube_broadcast (env : CreateEnv) :
    Option (List Char) × List CreateStep × Bool :=
  match env.insertBroadcast with
  | none => (none, [.insertBroadcast], false)
  | some _ =>
    match env.insertStream with
    | none => (none, [.insertBroadcast, .insertStream], false)
    | some (_, key) =>
      if env.bindOk then
        (some key, [.insertBroadcast, .insertStream, .bind, .playlistPhase],
          match env.playlistId with
          | some _ => env.insertItemOk
          | none => false)
      else (none, [.insertBroadcast, .insertStream, .bind], false)

/-- Commands set_stream_settings sends to the OBS client, in order:
get_stream_status, stop_stream, set_stream_service_settings, and
sleeps (time.sleep n). -/
inductive ObsCmd
  | getStatus
  | stopStream
  | setServiceSettings
  | sleepSec (n : Nat)
deriving Repr, DecidableEq

/-- Oracle for one run of set_stream_settings, obs_handler.py lines
108-160: activeAt k is output_active as reported by the k-th
get_stream_status call of this run (call 0 is line 116, calls 1, 2, ... are
the polls of line 124), applyOk i tells whether the i-th
set_stream_service_settings attempt of line 141 succeeds, maxRetries is
obs_execution.set_stream_settings_max_retries and delay is
obs_execution.set_stream_settings_retry_delay_seconds. -/
structure ObsEnv where
  activeAt : Nat → Bool
  applyOk : Nat → Bool
  maxRetries : Nat
  delay : Nat

/-- Transcription of the stop-wait poll loop, obs_handler.py lines 122-131:
while fewer than 30 seconds have elapsed, call get_stream_status; break as
soon as output_active is false, else sleep one second.  Each loop pass
costs one second of wall clock, so the bound of line 123 allows at most 30
passes, which is the fuel argument (30 at the call site).  Returns whether
the stream was observed inactive, together with the emitted command
trace. -/
def pollInactive (activeAt : Nat → Bool) : Nat → Nat → Bool × List ObsCmd
  | _, 0 => (false, [])
  | callIdx, fuel + 1 =>
    if activeAt callIdx then
      ((pollInactive activeAt (callIdx + 1) fuel).1,
       ObsCmd.getStatus :: ObsCmd.sleepSec 1 :: (pollInactive activeAt (callIdx + 1) fuel).2)
    else (true, [ObsCmd.getStatus])

/-- Transcription of the retry loop of set_stream_settings, obs_handler.py
lines 138-160, from attempt number attempt: each attempt issues
set_stream_service_settings; success returns True immediately (line 150);
failure sleeps the configured delay when attempts remain (lines 154-156)
and returns False after the last attempt (lines 157-159). -/
def applyLoop (applyOk : Nat → Bool) (maxRetries delay : Nat) (attempt : Nat) :
    Bool × List ObsCmd :=
  if _h : attempt < maxRetries then
    if applyOk attempt then (true, [ObsCmd.setServiceSettings])
    else if attempt < maxRetries - 1 then
      ((applyLoop applyOk maxRetries delay (attempt + 1)).1,
       ObsCmd.setServiceSettings :: ObsCmd.sleepSec delay ::
         (applyLoop applyOk maxRetries delay (attempt + 1)).2)
    else (false, [ObsCmd.setServiceSettings])
  else (false, [])
termination_by maxRetries - attempt

/-- Transcription of set_stream_settings, obs_handler.py lines 108-160
(its body; the ensure_connection decorator around it is modelled
separately).  The initial get_stream_status of line 116 is modelled as
succeeding; when it reports output_active, stop_stream is issued (line 119)
and the poll loop of lines 122-131 waits up to 30 seconds for inactivity,
returning False at line 131 when the bound is hit with the output still
active.  Only then does the retry loop of lines 138-160 apply the new
settings.  Returns the Python return value and the command trace. -/
def set_stream_settings (env : ObsEnv) : Bool × List ObsCmd :=
  if env.activeAt 0 then
    if (pollInactive env.activeAt 1 30).1 then
      ((applyLoop env.applyOk env.maxRetries env.delay 0).1,
       ObsCmd.getStatus :: ObsCmd.stopStream ::
         ((pollInactive env.activeAt 1 30).2 ++
          (applyLoop env.applyOk env.maxRetries env.delay 0).2))
    else (false, ObsCmd.getStatus :: ObsCmd.stopStream :: (pollInactive env.activeAt 1 30).2)
  else
    ((applyLoop env.applyOk env.maxRetries env.delay 0).1,
     ObsCmd.getStatus :: (applyLoop env.applyOk env.maxRetries env.delay 0).2)

/-! Helper lemmas about the loop controller. -/

theorem terminationCheck_unbounded (iter el now : Nat) :
    terminationCheck ⟨0, 0, dtMax⟩ iter el now = none := by
  simp [terminationCheck]

theorem runLoopAux_unbounded_fuelOut (env : Nat → IterTrace) (times : Nat → Nat × Nat) :
    ∀ (fuel k i : Nat),
      (runLoopAux ⟨0, 0, dtMax⟩ (fun j => IterSignal.body (env j)) times fuel k i).1 =
        RunEnd.fuelOut := by
  intro fuel
  induction fuel with
  | zero => intro k i; rfl
  | succ n ih =>
    intro k i
    simp only [runLoopAux, terminationCheck_unbounded]
    exact ih (k + 1) _

/-- C1: the while loop of main breaks at the top of an iteration exactly when
one of the three bound predicates holds, evaluated in the fixed source order
iteration-count bound, cumulative-duration bound, absolute-expiration bound
(a later reason is reported only when every earlier predicate is false); and
with count = 0, duration_hours = 0 and expiration_datetime unset, no check
ever fires, so the loop runs out of any amount of fuel without terminating
on its own, whatever the iteration bodies do. -/
theorem C1_loop_termination (cfg : LoopCfg) (iter el now : Nat) :
    ((terminationCheck cfg iter el now).isSome ↔
       ((cfg.loopCount ≠ 0 ∧ iter ≥ cfg.loopCount) ∨
        (cfg.durationHours ≠ 0 ∧ el / 3600 ≥ cfg.durationHours) ∨
        (cfg.expiration ≠ dtMax ∧ now ≥ cfg.expiration))) ∧
    (terminationCheck cfg iter el now = some BreakReason.countBound ↔
       (cfg.loopCount ≠ 0 ∧ iter ≥ cfg.loopCount)) ∧
    (terminationCheck cfg iter el now = some BreakReason.durationBound ↔
       (¬(cfg.loopCount ≠ 0 ∧ iter ≥ cfg.loopCount) ∧
        (cfg.durationHours ≠ 0 ∧ el / 3600 ≥ cfg.durationHours))) ∧
    (terminationCheck cfg iter el now = some BreakReason.expirationBound ↔
       (¬(cfg.loopCount ≠ 0 ∧ iter ≥ cfg.loopCount) ∧
        ¬(cfg.durationHours ≠ 0 ∧ el / 3600 ≥ cfg.durationHours) ∧
        (cfg.expiration ≠ dtMax ∧ now ≥ cfg.expiration))) ∧
    (∀ (env : Nat → IterTrace) (times : Nat → Nat × Nat) (fuel k i : Nat),
       (runLoopAux ⟨0, 0, (computeExpiration none).1⟩
         (fun j => IterSignal.body (env j)) times fuel k i).1 = RunEnd.fuelOut) := by
  refine ⟨?_, ?_, ?_, ?_, fun env times fuel k i => runLoopAux_unbounded_fuelOut env times fuel k i⟩
  all_goals unfold terminationCheck
  all_goals split_ifs with h1 h2 h3 <;> simp_all

/-- C2: in every loop iteration, each of the three soft-retry triggers
(create_youtube_broadcast falsy, set_stream_settings false, activation wait
timing out) sleeps the 60-second backoff and continues without issuing stop,
without the 10-second inter-iteration sleep and without incrementing
loop_iteration; any other exception inside the body is caught exactly at the
iteration boundary (line 142 of main.py), also sleeps the 60-second backoff,
and the iteration is abandoned but counted, loop_iteration growing by
exactly 1. -/
theorem C2_soft_retry_vs_counted (t : IterTrace) (iter : Nat) :
    ((t = IterTrace.createNone ∨ t = IterTrace.settingsFalse ∨ t = IterTrace.waitFalse) →
      runIteration t iter = ⟨false, iter, true, false, false⟩) ∧
    ((runIteration t iter).caughtAtBoundary = true ↔
      (t = IterTrace.createRaises ∨ t = IterTrace.preWaitRaises ∨ t = IterTrace.holdRaises)) ∧
    ((runIteration t iter).caughtAtBoundary = true →
      (runIteration t iter).sleep60 = true ∧
      (runIteration t iter).nextIter = iter + 1) := by
  cases t <;> simp [runIteration]

/-- C2 witness: a soft retry at iteration 4 keeps loop_iteration at 4, and a
hold-loop exception at iteration 4 backs off and advances it to 5. -/
theorem C2_witness :
    runIteration IterTrace.createNone 4 = ⟨false, 4, true, false, false⟩ ∧
    ((runIteration IterTrace.holdRaises 4).sleep60 = true ∧
      (runIteration IterTrace.holdRaises 4).nextIter = 4 + 1) :=
  ⟨(C2_soft_retry_vs_counted IterTrace.createNone 4).1 (Or.inl rfl),
   (C2_soft_retry_vs_counted IterTrace.holdRaises 4).2.2 rfl⟩

/-- C4 counterexample: an exception raised inside the hold loop of an
iteration that reached the Streaming hold is caught (at the generic
iteration boundary), yet the stop command is NOT issued, contrary to the
claim that it is still issued before the iteration proceeds. -/
theorem C4_counterexample :
    (runIteration IterTrace.holdRaises 0).caughtAtBoundary = true ∧
    (runIteration IterTrace.holdRaises 0).stopIssued = false :=
  ⟨rfl, rfl⟩

/-- C4 (amended): the stop command is issued exactly when the hold window
completes without an exception; an exception raised inside the hold loop is
caught by the generic iteration-boundary handler (logged, 60-second
backoff, iteration counted), and the stop command is not issued. -/
theorem C4_amended_stop_on_hold (iter : Nat) :
    (runIteration IterTrace.holdCompletes iter).stopIssued = true ∧
    (runIteration IterTrace.holdRaises iter).stopIssued = false ∧
    (runIteration IterTrace.holdRaises iter).caughtAtBoundary = true ∧
    (runIteration IterTrace.holdRaises iter).sleep60 = true ∧
    (runIteration IterTrace.holdRaises iter).nextIter = iter + 1 ∧
    (∀ t, (runIteration t iter).stopIssued = true ↔ t = IterTrace.holdCompletes) := by
  refine ⟨rfl, rfl, rfl, rfl, rfl, ?_⟩
  intro t
  cases t <;> simp [runIteration]

/-- C9: for every bound configuration, every schedule of iteration outcomes
(a KeyboardInterrupt anywhere included) and every fuel, the teardown that
disconnects the OBS client runs, the process exit code is 0, and the
KeyboardInterrupt handler at the outer boundary fires exactly once when the
run ends by interrupt and zero times otherwise. -/
theorem C9_interrupt_and_teardown (cfg : LoopCfg) (env : Nat → IterSignal)
    (times : Nat → Nat × Nat) (fuel : Nat) :
    (runMain cfg env times fuel).disconnectRan = true ∧
    (runMain cfg env times fuel).exitCode = 0 ∧
    (runMain cfg env times fuel).interruptCaught ≤ 1 ∧
    ((runMain cfg env times fuel).runEnd = RunEnd.interrupted ↔
      (runMain cfg env times fuel).interruptCaught = 1) := by
  unfold runMain
  by_cases h : (runLoopAux cfg env times fuel 0 0).1 = RunEnd.interrupted <;> simp [h]

/-- C10: a non-empty expiration_datetime string on which strptime raises
ValueError leads to the warning of line 60 of main.py and to datetime.max as
the expiration bound, which makes the expiration predicate unsatisfiable:
the termination check never reports the expiration bound and coincides with
the unset-string behavior on every input, so the program keeps running
rather than aborting or terminating immediately. -/
theorem C10_malformed_expiration (c d iter el now : Nat) :
    computeExpiration (some none) = (dtMax, true) ∧
    (computeExpiration (some none)).1 = (computeExpiration none).1 ∧
    terminationCheck ⟨c, d, (computeExpiration (some none)).1⟩ iter el now ≠
      some BreakReason.expirationBound ∧
    terminationCheck ⟨c, d, (computeExpiration (some none)).1⟩ iter el now =
      terminationCheck ⟨c, d, (computeExpiration none).1⟩ iter el now := by
  refine ⟨rfl, rfl, ?_, rfl⟩
  show terminationCheck ⟨c, d, dtMax⟩ iter el now ≠ some BreakReason.expirationBound
  unfold terminationCheck
  split_ifs <;> simp_all

/-! Helper lemmas about the cleanup deletion loops. -/

theorem deleteStreamsFrom_no_abort :
    ∀ (batch : List DeleteOutcome) (s : Nat), DeleteOutcome.otherExc ∉ batch →
      (deleteStreamsFrom batch s).2 = false ∧
      (deleteStreamsFrom batch s).1.length = batch.count DeleteOutcome.success
  | [], s, _ => by simp [deleteStreamsFrom]
  | o :: rest, s, h => by
    have hr : DeleteOutcome.otherExc ∉ rest := fun hm => h (List.mem_cons_of_mem o hm)
    have hrec := deleteStreamsFrom_no_abort rest (s + 1) hr
    have ho : o ≠ DeleteOutcome.otherExc := by
      intro he
      exact h (he ▸ List.mem_cons_self o rest)
    cases o <;>
      simp_all [deleteStreamsFrom, List.count_cons, hrec.1, hrec.2]

theorem deleteStreamsFrom_abort :
    ∀ (pre post : List DeleteOutcome) (s : Nat), DeleteOutcome.otherExc ∉ pre →
      deleteStreamsFrom (pre ++ DeleteOutcome.otherExc :: post) s =
        ((deleteStreamsFrom pre s).1, true)
  | [], post, s, _ => by simp [deleteStreamsFrom]
  | o :: rest, post, s, h => by
    have hr : DeleteOutcome.otherExc ∉ rest := fun hm => h (List.mem_cons_of_mem o hm)
    have ho : o ≠ DeleteOutcome.otherExc := by
      intro he
      exact h (he ▸ List.mem_cons_self o rest)
    have hrec := deleteStreamsFrom_abort rest post (s + 1) hr
    cases o <;> simp_all [deleteStreamsFrom]

theorem deleteBroadcastsFrom_stops :
    ∀ (pre : List DeleteOutcome) (o : DeleteOutcome) (post : List DeleteOutcome) (s : Nat),
      (∀ x ∈ pre, x = DeleteOutcome.success) → o ≠ DeleteOutcome.success →
      (deleteBroadcastsFrom (pre ++ o :: post) s).2 = true ∧
      (deleteBroadcastsFrom (pre ++ o :: post) s).1.length = pre.length
  | [], o, post, s, _, ho => by
    cases o <;> simp_all [deleteBroadcastsFrom]
  | a :: as, o, post, s, hpre, ho => by
    have ha : a = DeleteOutcome.success := hpre a (List.mem_cons_self a as)
    subst ha
    have hrec := deleteBroadcastsFrom_stops as o post (s + 1)
      (fun x hx => hpre x (List.mem_cons_of_mem _ hx)) ho
    simp [deleteBroadcastsFrom, hrec.1, hrec.2]

/-- C3 counterexample: in delete_all_scheduled_broadcasts, a deletion
failure on the 2nd broadcast of a batch of 3 (an HttpError, which the claim
says is logged while the remaining deletions continue) aborts the batch:
only the 1st broadcast is deleted and the 3rd is not, the exception being
caught at the function-level except clause. -/
theorem C3_counterexample :
    delete_all_scheduled_broadcasts
        [DeleteOutcome.success, DeleteOutcome.httpError, DeleteOutcome.success] =
      ([0], true) ∧
    2 ∉ (delete_all_scheduled_broadcasts
        [DeleteOutcome.success, DeleteOutcome.httpError, DeleteOutcome.success]).1 := by
  constructor
  · rfl
  · decide

/-- C3 (amended): in delete_all_live_streams, a delete call raising the
403 liveStreamDeletionNotAllowed condition is logged and skipped, and any
other HttpError is logged, while the remaining streams in the batch are
still deleted (with a batch of 3 and the 2nd raising either condition, the
1st and the 3rd are deleted); in general every stream batch free of
non-HttpError failures is processed to the end with every successful delete
performed.  A non-HttpError failure on a stream deletion, by contrast,
escapes the per-item try (which catches only HttpError) and aborts the
remaining stream deletions: the batch behaves exactly as if it ended before
the failing item, with the exception caught at the function-level except.
For scheduled broadcasts, the first failing delete call of any kind aborts
the remaining broadcast deletions of the batch: exactly the broadcasts
before it are deleted, and the failure is caught and logged at the function
boundary, so the cleanup sequence itself continues best-effort. -/
theorem C3_amended_cleanup (batch : List DeleteOutcome) :
    delete_all_live_streams
        [DeleteOutcome.success, DeleteOutcome.forbidden, DeleteOutcome.success] =
      ([0, 2], false) ∧
    delete_all_live_streams
        [DeleteOutcome.success, DeleteOutcome.httpError, DeleteOutcome.success] =
      ([0, 2], false) ∧
    (DeleteOutcome.otherExc ∉ batch →
      (delete_all_live_streams batch).2 = false ∧
      (delete_all_live_streams batch).1.length = batch.count DeleteOutcome.success) ∧
    (∀ pre post, DeleteOutcome.otherExc ∉ pre →
      delete_all_live_streams (pre ++ DeleteOutcome.otherExc :: post) =
        ((delete_all_live_streams pre).1, true)) ∧
    (∀ pre o post, (∀ x ∈ pre, x = DeleteOutcome.success) → o ≠ DeleteOutcome.success →
      (delete_all_scheduled_broadcasts (pre ++ o :: post)).2 = true ∧
      (delete_all_scheduled_broadcasts (pre ++ o :: post)).1.length = pre.length) := by
  refine ⟨rfl, rfl, fun h => deleteStreamsFrom_no_abort batch 0 h,
    fun pre post hpre => deleteStreamsFrom_abort pre post 0 hpre,
    fun pre o post hpre ho => deleteBroadcastsFrom_stops pre o post 0 hpre ho⟩

/-- C3 witness: a stream batch with two non-403 HttpErrors still deletes
its single successful stream without aborting; a stream batch of 3 whose
2nd delete raises a non-HttpError aborts after deleting only the streams
before it; and a broadcast batch of 3 whose 2nd delete fails deletes
exactly 1 broadcast with the failure caught at the function boundary. -/
theorem C3_witness :
    ((delete_all_live_streams
        [DeleteOutcome.httpError, DeleteOutcome.success, DeleteOutcome.httpError]).2 = false ∧
     (delete_all_live_streams
        [DeleteOutcome.httpError, DeleteOutcome.success, DeleteOutcome.httpError]).1.length =
       [DeleteOutcome.httpError, DeleteOutcome.success,
        DeleteOutcome.httpError].count DeleteOutcome.success) ∧
    delete_all_live_streams
        ([DeleteOutcome.success] ++ DeleteOutcome.otherExc :: [DeleteOutcome.success]) =
      ((delete_all_live_streams [DeleteOutcome.success]).1, true) ∧
    ((delete_all_scheduled_broadcasts
        ([DeleteOutcome.success] ++ DeleteOutcome.otherExc :: [DeleteOutcome.success])).2 = true ∧
     (delete_all_scheduled_broadcasts
        ([DeleteOutcome.success] ++ DeleteOutcome.otherExc :: [DeleteOutcome.success])).1.length =
       [DeleteOutcome.success].length) :=
  ⟨(C3_amended_cleanup
      [DeleteOutcome.httpError, DeleteOutcome.success, DeleteOutcome.httpError]).2.2.1
    (by decide),
   (C3_amended_cleanup []).2.2.2.1
    [DeleteOutcome.success] [DeleteOutcome.success] (by decide),
   (C3_amended_cleanup []).2.2.2.2
    [DeleteOutcome.success] DeleteOutcome.otherExc [DeleteOutcome.success]
    (by decide) (by decide)⟩

/-! Helper lemmas about the OBS stream-settings retry loop and the
stop-wait poll loop. -/

theorem applyLoop_eq (applyOk : Nat → Bool) (m d a : Nat) :
    applyLoop applyOk m d a =
      if a < m then
        if applyOk a then (true, [ObsCmd.setServiceSettings])
        else if a < m - 1 then
          ((applyLoop applyOk m d (a + 1)).1,
           ObsCmd.setServiceSettings :: ObsCmd.sleepSec d ::
             (applyLoop applyOk m d (a + 1)).2)
        else (false, [ObsCmd.setServiceSettings])
      else (false, []) := by
  rw [applyLoop]
  rfl

theorem applyLoop_allFail (applyOk : Nat → Bool) (h : ∀ i, applyOk i = false)
    (m d : Nat) : ∀ n a, m - a = n →
    (applyLoop applyOk m d a).1 = false ∧
    (applyLoop applyOk m d a).2.count ObsCmd.setServiceSettings = m - a ∧
    (applyLoop applyOk m d a).2.count (ObsCmd.sleepSec d) = m - a - 1 := by
  intro n
  induction n with
  | zero =>
    intro a ha
    have ham : ¬ a < m := by omega
    rw [applyLoop_eq]
    simp [ham, ha]
  | succ n ih =>
    intro a ha
    have ham : a < m := by omega
    rw [applyLoop_eq]
    by_cases h2 : a < m - 1
    · have hrec := ih (a + 1) (by omega)
      simp [ham, h a, h2, List.count_cons, hrec.1, hrec.2.1, hrec.2.2]
      omega
    · simp [ham, h a, h2, List.count_cons]
      omega

theorem applyLoop_firstSuccess (applyOk : Nat → Bool) (m d k : Nat)
    (hk : applyOk k = true) (hkm : k < m) : ∀ n a, k - a = n → a ≤ k →
    (∀ j, a ≤ j → j < k → applyOk j = false) →
    (applyLoop applyOk m d a).1 = true ∧
    (applyLoop applyOk m d a).2.count ObsCmd.setServiceSettings = k + 1 - a := by
  intro n
  induction n with
  | zero =>
    intro a ha hak _hbefore
    have hae : a = k := by omega
    subst hae
    rw [applyLoop_eq]
    simp [hkm, hk]
  | succ n ih =>
    intro a ha hak hbefore
    have hak2 : a < k := by omega
    have ham : a < m := by omega
    have hfa : applyOk a = false := hbefore a le_rfl hak2
    have ham1 : a < m - 1 := by omega
    have hrec := ih (a + 1) (by omega) (by omega)
      (fun j hj hjk => hbefore j (by omega) hjk)
    rw [applyLoop_eq]
    simp [ham, hfa, ham1, List.count_cons, hrec.1, hrec.2]
    omega

theorem applyLoop_no_getStatus (applyOk : Nat → Bool) (m d : Nat) : ∀ n a, m - a = n →
    (applyLoop applyOk m d a).2.count ObsCmd.getStatus = 0 := by
  intro n
  induction n with
  | zero =>
    intro a ha
    have ham : ¬ a < m := by omega
    rw [applyLoop_eq]
    simp [ham]
  | succ n ih =>
    intro a ha
    have ham : a < m := by omega
    rw [applyLoop_eq]
    by_cases hok : applyOk a
    · simp [ham, hok]
    · by_cases h2 : a < m - 1
      · simp [ham, hok, h2, List.count_cons, ih (a + 1) (by omega)]
      · simp [ham, hok, h2]

theorem pollInactive_no_setSS (activeAt : Nat → Bool) :
    ∀ (fuel c : Nat), (pollInactive activeAt c fuel).2.count ObsCmd.setServiceSettings = 0 := by
  intro fuel
  induction fuel with
  | zero => intro c; simp [pollInactive]
  | succ n ih =>
    intro c
    by_cases h : activeAt c <;> simp [pollInactive, h, List.count_cons, ih (c + 1)]

theorem pollInactive_getStatus_le (activeAt : Nat → Bool) :
    ∀ (fuel c : Nat), (pollInactive activeAt c fuel).2.count ObsCmd.getStatus ≤ fuel := by
  intro fuel
  induction fuel with
  | zero => intro c; simp [pollInactive]
  | succ n ih =>
    intro c
    by_cases h : activeAt c
    · have := ih (c + 1)
      simp [pollInactive, h, List.count_cons]
      omega
    · simp [pollInactive, h]

theorem pollInactive_all_active (activeAt : Nat → Bool) :
    ∀ (fuel c : Nat), (∀ j, c ≤ j → j < c + fuel → activeAt j = true) →
    (pollInactive activeAt c fuel).1 = false := by
  intro fuel
  induction fuel with
  | zero => intro c _; rfl
  | succ n ih =>
    intro c h
    have hc : activeAt c = true := h c le_rfl (by omega)
    simp [pollInactive, hc]
    exact ih (c + 1) (fun j hj hj2 => h j (by omega) (by omega))

/-- C5: with the output inactive, when every set_stream_service_settings
attempt fails, set_stream_settings performs exactly maxRetries attempts,
sleeping the configured fixed delay between consecutive attempts (one sleep
fewer than attempts), then returns false; and when the first success is at
attempt k it returns true after exactly k + 1 attempts, never performing
the remaining ones. -/
theorem C5_retry_bound (applyOk : Nat → Bool) (m d : Nat) :
    ((∀ i, applyOk i = false) →
      (set_stream_settings ⟨fun _ => false, applyOk, m, d⟩).1 = false ∧
      (set_stream_settings ⟨fun _ => false, applyOk, m, d⟩).2.count
          ObsCmd.setServiceSettings = m ∧
      (set_stream_settings ⟨fun _ => false, applyOk, m, d⟩).2.count
          (ObsCmd.sleepSec d) = m - 1) ∧
    (∀ k, k < m → applyOk k = true → (∀ j, j < k → applyOk j = false) →
      (set_stream_settings ⟨fun _ => false, applyOk, m, d⟩).1 = true ∧
      (set_stream_settings ⟨fun _ => false, applyOk, m, d⟩).2.count
          ObsCmd.setServiceSettings = k + 1) := by
  constructor
  · intro h
    have hall := applyLoop_allFail applyOk h m d (m - 0) 0 rfl
    simp [set_stream_settings, List.count_cons, hall.1, hall.2.1, hall.2.2]
  · intro k hkm hk hbefore
    have hfs := applyLoop_firstSuccess applyOk m d k hk hkm (k - 0) 0 rfl
      (Nat.zero_le k) (fun j _ hjk => hbefore j hjk)
    simp [set_stream_settings, List.count_cons, hfs.1, hfs.2]

/-- C5 witness: with 3 configured attempts and every attempt failing,
exactly 3 attempts and 2 inter-attempt sleeps happen and the result is
false; with the first success at attempt index 1, the result is true after
exactly 2 attempts. -/
theorem C5_witness :
    ((set_stream_settings ⟨fun _ => false, fun _ => false, 3, 7⟩).1 = false ∧
     (set_stream_settings ⟨fun _ => false, fun _ => false, 3, 7⟩).2.count
        ObsCmd.setServiceSettings = 3 ∧
     (set_stream_settings ⟨fun _ => false, fun _ => false, 3, 7⟩).2.count
        (ObsCmd.sleepSec 7) = 3 - 1) ∧
    ((set_stream_settings ⟨fun _ => false, fun i => decide (i = 1), 3, 7⟩).1 = true ∧
     (set_stream_settings ⟨fun _ => false, fun i => decide (i = 1), 3, 7⟩).2.count
        ObsCmd.setServiceSettings = 1 + 1) :=
  ⟨(C5_retry_bound (fun _ => false) 3 7).1 (fun _ => rfl),
   (C5_retry_bound (fun i => decide (i = 1)) 3 7).2 1 (by decide) (by decide)
     (by decide)⟩

/-- C6: the ensure_connection wrapper applied to any operation: with no
client and a failing connect the operation is never invoked and the result
is None; from an established connection, a connection-level error on the
first invocation with a succeeding reconnect performs exactly one
disconnect-and-reconnect cycle and retries the operation exactly once, a
second failure of any kind surfacing as None rather than an uncaught
fault; and in every case at most two invocations and at most one reconnect
cycle ever happen. -/
theorem C6_reconnect_policy (env : WrapEnv) :
    (env.connected = false → env.connect1 = false →
      ensure_connection env = ⟨none, 0, 0⟩) ∧
    ((env.connected = true ∨ env.connect1 = true) →
      env.call1 = OpRes.err OpErr.connErr → env.reconnectOk = true →
      (ensure_connection env).reconnectCycles = 1 ∧
      (ensure_connection env).opCalls = 2 ∧
      (∀ v, env.call2 = OpRes.ok v → (ensure_connection env).result = some v) ∧
      (∀ e, env.call2 = OpRes.err e → (ensure_connection env).result = none)) ∧
    (ensure_connection env).opCalls ≤ 2 ∧
    (ensure_connection env).reconnectCycles ≤ 1 := by
  obtain ⟨c, c1, k1, r, k2⟩ := env
  cases c <;> cases c1 <;> cases r <;>
    rcases k1 with v1 | e1 <;> rcases k2 with v2 | e2 <;>
    (try cases e1) <;> (try cases e2) <;>
    simp [ensure_connection]

/-- C6 witness: no client and failed connect gives None with zero
invocations; a connected client whose operation raises a connection error
and whose retry raises again performs one reconnect cycle, two invocations,
and returns None. -/
theorem C6_witness :
    ensure_connection ⟨false, false, OpRes.ok 7, true, OpRes.ok 7⟩ = ⟨none, 0, 0⟩ ∧
    (ensure_connection
      ⟨true, true, OpRes.err OpErr.connErr, true, OpRes.err OpErr.otherErr⟩).reconnectCycles
      = 1 ∧
    (ensure_connection
      ⟨true, true, OpRes.err OpErr.connErr, true, OpRes.err OpErr.otherErr⟩).opCalls = 2 ∧
    (ensure_connection
      ⟨true, true, OpRes.err OpErr.connErr, true, OpRes.err OpErr.otherErr⟩).result = none := by
  have h1 := (C6_reconnect_policy ⟨false, false, OpRes.ok 7, true, OpRes.ok 7⟩).1 rfl rfl
  have h2 := (C6_reconnect_policy
    ⟨true, true, OpRes.err OpErr.connErr, true, OpRes.err OpErr.otherErr⟩).2.1
    (Or.inl rfl) rfl rfl
  exact ⟨h1, h2.1, h2.2.1, h2.2.2.2 OpErr.otherErr rfl⟩

/-- C7: create_youtube_broadcast performs its four steps in order, returns
None exactly when step 1 (insert broadcast), step 2 (insert stream) or step
3 (bind) fails, attempting no later step after a failure; and when the
first three steps succeed it returns the stream key obtained in step 2
whatever happens in step 4 (the playlist resolution or the playlist-item
insert failing included, those being only logged). -/
theorem C7_create_four_steps (env : CreateEnv) :
    ((create_youtube_broadcast env).1 = none ↔
      (env.insertBroadcast = none ∨ env.insertStream = none ∨ env.bindOk = false)) ∧
    (env.insertBroadcast = none →
      (create_youtube_broadcast env).2.1 = [CreateStep.insertBroadcast]) ∧
    (env.insertBroadcast ≠ none → env.insertStream = none →
      (create_youtube_broadcast env).2.1 =
        [CreateStep.insertBroadcast, CreateStep.insertStream]) ∧
    (∀ s key, env.insertBroadcast ≠ none → env.insertStream = some (s, key) →
      env.bindOk = false →
      (create_youtube_broadcast env).2.1 =
        [CreateStep.insertBroadcast, CreateStep.insertStream, CreateStep.bind]) ∧
    (∀ s key, env.insertBroadcast ≠ none → env.insertStream = some (s, key) →
      env.bindOk = true →
      (create_youtube_broadcast env).1 = some key ∧
      (create_youtube_broadcast env).2.1 =
        [CreateStep.insertBroadcast, CreateStep.insertStream, CreateStep.bind,
         CreateStep.playlistPhase]) := by
  obtain ⟨ib, istr, bo, pl, ii⟩ := env
  rcases ib with _ | b <;> rcases istr with _ | ⟨s, key⟩ <;> cases bo <;>
    simp [create_youtube_broadcast]

/-- C7 witness: a failing step 1 stops after step 1; succeeding steps 1-3
with a failing step 4 (no playlist resolved) still return the stream key of
step 2 after attempting all four steps. -/
theorem C7_witness :
    (create_youtube_broadcast ⟨none, none, false, none, false⟩).2.1 =
      [CreateStep.insertBroadcast] ∧
    ((create_youtube_broadcast ⟨some 1, some (2, ['k']), true, none, false⟩).1 =
      some ['k'] ∧
     (create_youtube_broadcast ⟨some 1, some (2, ['k']), true, none, false⟩).2.1 =
      [CreateStep.insertBroadcast, CreateStep.insertStream, CreateStep.bind,
       CreateStep.playlistPhase]) :=
  ⟨(C7_create_four_steps ⟨none, none, false, none, false⟩).2.1 rfl,
   (C7_create_four_steps ⟨some 1, some (2, ['k']), true, none, false⟩).2.2.2.2
     2 ['k'] (by simp) rfl rfl⟩

/-- C8: whenever set_stream_settings starts with get_stream_status
reporting the output active, the stop command is its second emitted command
(so it precedes every set_stream_service_settings), at most 31 status calls
happen overall (the initial one plus the at most 30 one-per-second polls of
the stop-wait loop), and when every poll in the 30-second window still
reports the output active the function returns false without ever issuing
set_stream_service_settings. -/
theorem C8_stop_before_settings (env : ObsEnv) (h : env.activeAt 0 = true) :
    (set_stream_settings env).2.take 2 = [ObsCmd.getStatus, ObsCmd.stopStream] ∧
    (set_stream_settings env).2.count ObsCmd.getStatus ≤ 31 ∧
    ((∀ k, 1 ≤ k → k ≤ 30 → env.activeAt k = true) →
      (set_stream_settings env).1 = false ∧
      (set_stream_settings env).2.count ObsCmd.setServiceSettings = 0) := by
  refine ⟨?_, ?_, ?_⟩
  · by_cases hp : (pollInactive env.activeAt 1 30).1 <;>
      simp [set_stream_settings, h, hp]
  · have h1 := pollInactive_getStatus_le env.activeAt 30 1
    have h2 := applyLoop_no_getStatus env.applyOk env.maxRetries env.delay
      (env.maxRetries - 0) 0 rfl
    by_cases hp : (pollInactive env.activeAt 1 30).1 <;>
      simp [set_stream_settings, h, hp, List.count_cons, List.count_append, h2] <;>
      omega
  · intro hall
    have hp : (pollInactive env.activeAt 1 30).1 = false :=
      pollInactive_all_active env.activeAt 30 1
        (fun j hj hj2 => hall j hj (by omega))
    simp [set_stream_settings, h, hp, List.count_cons, pollInactive_no_setSS]

/-- C8 witness: with the output reported active at every status call, the
trace starts with get_stream_status then stop_stream, the result is false,
and no set_stream_service_settings is ever issued. -/
theorem C8_witness :
    (set_stream_settings ⟨fun _ => true, fun _ => false, 2, 9⟩).2.take 2 =
      [ObsCmd.getStatus, ObsCmd.stopStream] ∧
    (set_stream_settings ⟨fun _ => true, fun _ => false, 2, 9⟩).1 = false ∧
    (set_stream_settings ⟨fun _ => true, fun _ => false, 2, 9⟩).2.count
      ObsCmd.setServiceSettings = 0 :=
  ⟨(C8_stop_before_settings ⟨fun _ => true, fun _ => false, 2, 9⟩ rfl).1,
   ((C8_stop_before_settings ⟨fun _ => true, fun _ => false, 2, 9⟩ rfl).2.2
      (fun _ _ _ => rfl)).1,
   ((C8_stop_before_settings ⟨fun _ => true, fun _ => false, 2, 9⟩ rfl).2.2
      (fun _ _ _ => rfl)).2⟩

end YTLoop
